import Mathlib

/-!
Verification of the S3-to-Bedrock image analyzer Lambda
(`src/lambda/S3ToBedrockImageAnalyzer/S3ToBedrockImageAnalyzer.py`).

The Python module is a linear pipeline: configuration check, S3 event
decoding, image fetch from S3 (with an extension-based MIME check),
base64 encoding, one Bedrock model invocation, and one S3 write of the
generated HTML. We embed it shallowly:

* external services (S3 get, Bedrock invoke, S3 put) are supplied as an
  `AWSWorld` record of response functions;
* every call to an external service is recorded in a `List Effect`
  trace, so statements such as "fails before any storage fetch" become
  statements about the trace;
* Python exceptions become an `Except PyError` result;
* Python strings are Lean `String`s; the raw image bytes and the
  percent-encoded object key are byte lists (`List Nat`, each < 256).
-/

/-- One observable call to an external AWS service. -/
inductive Effect where
  | s3Get (bucket key : String)
  | bedrockInvoke (modelId imageBase64 mimeType promptText : String)
  | s3Put (bucket key body contentType : String)
deriving DecidableEq

/-- A raised Python exception, as far as the pipeline distinguishes them:
`ValueError` (configuration error, unsupported file type), botocore
`ClientError` with its error code, `IndexError`/`KeyError` from indexing an
event without records, and any other exception. -/
inductive PyError where
  | valueError (msg : String)
  | clientError (code : String)
  | indexError
  | generic (msg : String)
deriving DecidableEq

/-- The part of a boto3 `get_object` response the code reads: `Body.read()`
and the optional `ContentType` entry (`response.get('ContentType', ...)`). -/
structure S3ObjectResp where
  body : List Nat
  contentType : Option String
deriving DecidableEq

/-- One item of the `content` list of a parsed Bedrock (Anthropic-format)
response; the code only reads its optional `text` field. -/
structure ContentItem where
  text : Option String
deriving DecidableEq

/-- A parsed Bedrock response body; the code only reads its optional
`content` list. -/
structure BedrockResponseBody where
  content : Option (List ContentItem)
deriving DecidableEq

/-- The environment of external services for one invocation: the S3
`get_object` outcome per (bucket, key), the parsed Bedrock response (or the
transport/service exception), and the S3 `put_object` outcome. -/
structure AWSWorld where
  getObject : String → String → Except PyError S3ObjectResp
  invokeModel : Except PyError BedrockResponseBody
  putObject : String → String → String → String → Except PyError Unit

/-- The two environment values read at module load:
`os.environ.get('BEDROCK_MODEL_ID')` and
`os.environ.get('GENERATED_IMAGE_BUCKET_NAME')`; `none` models an absent
variable. -/
structure Config where
  ANALYSIS_MODEL_ID : Option String
  GENERATED_IMAGE_BUCKET_NAME : Option String
deriving DecidableEq

/-- One record of the S3 notification: `record['s3']['bucket']['name']` and
the still percent-encoded `record['s3']['object']['key']`. -/
structure S3Record where
  bucketName : String
  objectKey : String
deriving DecidableEq

/-- The trigger payload: the `Records` list of the S3 event. -/
structure S3Event where
  records : List S3Record
deriving DecidableEq

/-- The `statusCode` and the two fields serialized into the JSON body of
the value returned on success. -/
structure HandlerResult where
  statusCode : Nat
  message : String
  output_key : String
deriving DecidableEq

instance {ε α : Type} [DecidableEq ε] [DecidableEq α] : DecidableEq (Except ε α) :=
  fun x y =>
    match x, y with
    | Except.error a, Except.error b =>
      if h : a = b then Decidable.isTrue (congrArg Except.error h)
      else Decidable.isFalse (fun hc => h (by cases hc; rfl))
    | Except.ok a, Except.ok b =>
      if h : a = b then Decidable.isTrue (congrArg Except.ok h)
      else Decidable.isFalse (fun hc => h (by cases hc; rfl))
    | Except.error _, Except.ok _ => Decidable.isFalse (fun hc => Except.noConfusion hc)
    | Except.ok _, Except.error _ => Decidable.isFalse (fun hc => Except.noConfusion hc)

/-- Python truthiness of an optional string: `None` and the empty string
are falsy (`if not ANALYSIS_MODEL_ID ...`). -/
def truthy : Option String → Bool
  | none => false
  | some s => !(s == "")

/-- ASCII lower-casing of one character, as `str.lower` acts on the ASCII
range (the extension suffixes compared against are ASCII, so nothing in the
pipeline distinguishes this from full Unicode lower-casing). -/
def lowerChar (c : Char) : Char :=
  if 65 ≤ c.toNat && c.toNat ≤ 90 then Char.ofNat (c.toNat + 32) else c

/-- `key.lower()`, character by character. -/
def lowerStr (s : String) : String := String.mk (s.data.map lowerChar)

/-- `s.endswith(suffix)`: the trailing characters of `s` equal `suffix`. -/
def endsWithS (s suffix : String) : Bool :=
  s.data.reverse.take suffix.data.length == suffix.data.reverse

/-- `key.replace('/', '_')`. -/
def slashToUnderscore (s : String) : String :=
  String.mk (s.data.map fun c => if c = '/' then '_' else c)

/-- The characters of an ASCII string as byte values. -/
def asciiBytes (s : String) : List Nat := s.data.map Char.toNat

/-- Is the byte an ASCII hex digit (as accepted by `urllib.parse.unquote`)? -/
def isHexDigitB (d : Nat) : Bool :=
  (48 ≤ d && d ≤ 57) || (65 ≤ d && d ≤ 70) || (97 ≤ d && d ≤ 102)

/-- Value of an ASCII hex digit byte. -/
def hexVal (d : Nat) : Nat :=
  if 48 ≤ d && d ≤ 57 then d - 48
  else if 65 ≤ d && d ≤ 70 then d - 55
  else if 97 ≤ d && d ≤ 102 then d - 87
  else 0

/-- The `+` to space replacement `string.replace('+', ' ')` performed by
`urllib.parse.unquote_plus` before percent-decoding. -/
def plusToSpace (l : List Nat) : List Nat := l.map fun b => if b = 43 then 32 else b

/-- Split a byte list at every `%` (37), CPython style: the separators are
consumed and `n` separators yield `n + 1` chunks. -/
def splitPercent : List Nat → List (List Nat)
  | [] => [[]]
  | b :: rest =>
    if b = 37 then [] :: splitPercent rest
    else
      match splitPercent rest with
      | first :: parts => (b :: first) :: parts
      | [] => [[b]]

/-- Decode one chunk that followed a `%`: two leading hex digits become
the encoded byte; a malformed sequence keeps the `%` literally, as
`urllib.parse.unquote` does. -/
def decodePercentPart : List Nat → List Nat
  | d1 :: d2 :: rest =>
    if isHexDigitB d1 && isHexDigitB d2 then (16 * hexVal d1 + hexVal d2) :: rest
    else 37 :: d1 :: d2 :: rest
  | part => 37 :: part

/-- Percent-decoding of a byte list: the first chunk is literal, every
later chunk followed a `%` and is decoded. -/
def percent_decode (l : List Nat) : List Nat :=
  match splitPercent l with
  | [] => []
  | first :: parts => first ++ (parts.map decodePercentPart).flatten

/-- `urllib.parse.unquote_plus(s, encoding='utf-8')` at the byte level,
following the CPython implementation: replace `+` by space, then split on
`%` and decode each following chunk. The UTF-8 encode/decode at the string
boundary is the identity on byte sequences, so the byte-level function is
the faithful model. -/
def unquote_plus (l : List Nat) : List Nat := percent_decode (plusToSpace l)

/-- `unquote_plus` lifted to the Lean strings used by the handler. Raw S3
event keys are percent-encoded ASCII, on which character values and UTF-8
bytes coincide. -/
def unquotePlusStr (s : String) : String :=
  String.mk ((unquote_plus (s.data.map Char.toNat)).map Char.ofNat)

/-- Is the byte kept verbatim by the platform's percent-encoding of object
keys (alphanumeric or one of `-`, `.`, `_`, `~`)? -/
def isSafeByte (b : Nat) : Bool :=
  (48 ≤ b && b ≤ 57) || (65 ≤ b && b ≤ 90) || (97 ≤ b && b ≤ 122)
    || b = 45 || b = 46 || b = 95 || b = 126

/-- Upper-case hex digit byte for a value below 16. -/
def hexDigitUpper (n : Nat) : Nat := if n < 10 then 48 + n else 55 + n

/-- Modelled from the spec: the platform side of the codec is not in the
repository; the spec says keys arrive percent-encoded (space as `+`,
other non-safe bytes as `%XX`) and that decoding round-trips to the
original key. This is that encoder, at the byte level. -/
def quote_plus : List Nat → List Nat
  | [] => []
  | b :: rest =>
    if b = 32 then 43 :: quote_plus rest
    else if isSafeByte b then b :: quote_plus rest
    else 37 :: hexDigitUpper (b / 16) :: hexDigitUpper (b % 16) :: quote_plus rest

/-- Base64 alphabet character for a value below 64. -/
def b64c (n : Nat) : Char :=
  ("ABCDEFGHIJKLMNOPQRSTUVWXYZabcdefghijklmnopqrstuvwxyz0123456789+/".data).getD n '='

/-- Standard base64 of a byte list, with `=` padding
(`base64.b64encode`). -/
def b64encodeBytes : List Nat → List Char
  | [] => []
  | [a] => [b64c (a / 4), b64c ((a % 4) * 16), '=', '=']
  | [a, b] => [b64c (a / 4), b64c ((a % 4) * 16 + b / 16), b64c ((b % 16) * 4), '=']
  | a :: b :: c :: rest =>
    b64c (a / 4) :: b64c ((a % 4) * 16 + b / 16) ::
      b64c ((b % 16) * 4 + c / 64) :: b64c (c % 64) :: b64encodeBytes rest

/-- `base64.b64encode(image_bytes).decode('utf-8')`. -/
def b64encode (bs : List Nat) : String := String.mk (b64encodeBytes bs)

/-- The analysis instruction prompt (`ANALYSIS_PROMPT_INSTRUCTION` in the
source): a fixed Japanese instruction block with the embedded
`CSS_CONTENT` stylesheet. Its exact text takes no part in any verified
property; only its identity as a fixed constant matters, so it is
represented by a marker string. -/
def ANALYSIS_PROMPT_INSTRUCTION : String := "ANALYSIS_PROMPT_INSTRUCTION"

/-- The fixed fallback HTML returned when the Bedrock response shape is
unexpected. -/
def FALLBACK_HTML : String :=
  "<html><body><h1>Error: Could not generate floor plan HTML.</h1></body></html>"

/-- `expected_mime_type` as computed at the top of `get_image_from_s3`:
`key.lower().endswith(('.jpg', '.jpeg'))` gives `image/jpeg`,
`key.lower().endswith('.png')` gives `image/png`, anything else is
unsupported (`none`). -/
def expected_mime_type (key : String) : Option String :=
  if endsWithS (lowerStr key) ".jpg" || endsWithS (lowerStr key) ".jpeg" then
    some "image/jpeg"
  else if endsWithS (lowerStr key) ".png" then some "image/png"
  else none

/-- `get_image_from_s3(bucket, key)`: raises `ValueError` before any S3
call when the extension is unsupported; otherwise performs the
`get_object` call, re-raising its exception unchanged, and on success
returns the body together with `response.get('ContentType',
expected_mime_type)`. -/
def get_image_from_s3 (w : AWSWorld) (bucket key : String) :
    Except PyError (List Nat × String) × List Effect :=
  match expected_mime_type key with
  | none =>
    (Except.error (PyError.valueError ("Unsupported file type for analysis: " ++ key)), [])
  | some expected =>
    match w.getObject bucket key with
    | Except.error e => (Except.error e, [Effect.s3Get bucket key])
    | Except.ok response =>
      (Except.ok (response.body, response.contentType.getD expected),
        [Effect.s3Get bucket key])

/-- The parse of the Bedrock response at line 250 of the source:
`response_body.get('content') and response_body['content'][0].get('text')`
is truthy exactly when the `content` list is present and non-empty and its
first item has a present, non-empty `text`; in that case the value is that
text. -/
def first_content_text (response_body : BedrockResponseBody) : Option String :=
  match response_body.content with
  | some (item :: _) =>
    match item.text with
    | some t => if t = "" then none else some t
    | none => none
  | _ => none

/-- `invoke_bedrock_multimodal_analysis(image_base64, mime_type,
prompt_text)`: performs the `invoke_model` call (recorded in the trace),
re-raises its exception unchanged, and otherwise returns the first content
text when the response has the expected truthy shape, or the fixed
fallback HTML when it does not. -/
def invoke_bedrock_multimodal_analysis (cfg : Config) (w : AWSWorld)
    (image_base64 mime_type prompt_text : String) :
    Except PyError String × List Effect :=
  let eff := Effect.bedrockInvoke (cfg.ANALYSIS_MODEL_ID.getD "")
    image_base64 mime_type prompt_text
  match w.invokeModel with
  | Except.error e => (Except.error e, [eff])
  | Except.ok response_body =>
    match first_content_text response_body with
    | some t => (Except.ok t, [eff])
    | none => (Except.ok FALLBACK_HTML, [eff])

/-- `handler(event, context)`: the configuration check (before the `try`
block, before any service call), then inside `try`: take `Records[0]`
(an empty list raises), decode the key with `unquote_plus`, fetch the
image, base64-encode it, invoke Bedrock, derive the output key from the
input key (with `/` replaced by `_`) and the second-resolution timestamp,
and `put_object` the HTML with content type `text/html`. Every exception
of the `try` body is logged and re-raised unchanged. `timestamp` stands
for `datetime.now().strftime("%Y%m%d%H%M%S")`, the only clock read. -/
def handler (cfg : Config) (w : AWSWorld) (event : S3Event) (timestamp : String) :
    Except PyError HandlerResult × List Effect :=
  if !truthy cfg.ANALYSIS_MODEL_ID || !truthy cfg.GENERATED_IMAGE_BUCKET_NAME then
    (Except.error (PyError.valueError
      "Configuration Error: BEDROCK_MODEL_ID or GENERATED_IMAGE_BUCKET_NAME missing."), [])
  else
    match event.records with
    | [] => (Except.error PyError.indexError, [])
    | record :: _ =>
      let bucket := record.bucketName
      let key := unquotePlusStr record.objectKey
      match get_image_from_s3 w bucket key with
      | (Except.error e, tr1) => (Except.error e, tr1)
      | (Except.ok (image_bytes, mime_type), tr1) =>
        let image_base64 := b64encode image_bytes
        match invoke_bedrock_multimodal_analysis cfg w image_base64 mime_type
            ANALYSIS_PROMPT_INSTRUCTION with
        | (Except.error e, tr2) => (Except.error e, tr1 ++ tr2)
        | (Except.ok html_content, tr2) =>
          let output_key :=
            "generated_floorplan_from_" ++ slashToUnderscore key ++ "_" ++ timestamp ++ ".html"
          let outBucket := cfg.GENERATED_IMAGE_BUCKET_NAME.getD ""
          let putEffect := Effect.s3Put outBucket output_key html_content "text/html"
          match w.putObject outBucket output_key html_content "text/html" with
          | Except.error e => (Except.error e, tr1 ++ tr2 ++ [putEffect])
          | Except.ok _ =>
            (Except.ok ⟨200, "HTML Floor plan generation successful", output_key⟩,
              tr1 ++ tr2 ++ [putEffect])

/-- Number of `s3Get` effects in a trace. -/
def countGet : List Effect → Nat
  | [] => 0
  | Effect.s3Get _ _ :: tr => countGet tr + 1
  | Effect.bedrockInvoke _ _ _ _ :: tr => countGet tr
  | Effect.s3Put _ _ _ _ :: tr => countGet tr

/-- Number of `bedrockInvoke` effects in a trace. -/
def countInvoke : List Effect → Nat
  | [] => 0
  | Effect.s3Get _ _ :: tr => countInvoke tr
  | Effect.bedrockInvoke _ _ _ _ :: tr => countInvoke tr + 1
  | Effect.s3Put _ _ _ _ :: tr => countInvoke tr

/-- Number of `s3Put` effects in a trace. -/
def countPut : List Effect → Nat
  | [] => 0
  | Effect.s3Get _ _ :: tr => countPut tr
  | Effect.bedrockInvoke _ _ _ _ :: tr => countPut tr
  | Effect.s3Put _ _ _ _ :: tr => countPut tr + 1

/-! ### Concrete fixtures for witnesses and counterexamples -/

/-- A configuration with both environment values present. -/
def cfgOk : Config := ⟨some "model-id", some "out-bucket"⟩

/-- A configuration whose model identifier variable is absent. -/
def cfgNoModel : Config := ⟨none, some "out-bucket"⟩

/-- A service environment where every call succeeds; the stored object is
one byte with no stored content type, and Bedrock answers with the text
`HELLO`. -/
def wOK : AWSWorld :=
  ⟨fun _ _ => Except.ok ⟨[1], none⟩,
   Except.ok ⟨some [⟨some "HELLO"⟩]⟩,
   fun _ _ _ _ => Except.ok ()⟩

/-- Like `wOK`, but the stored object carries an explicit content type
that differs from the one suggested by the file extension. -/
def wStoredType : AWSWorld :=
  ⟨fun _ _ => Except.ok ⟨[1], some "application/octet-stream"⟩,
   Except.ok ⟨some [⟨some "HELLO"⟩]⟩,
   fun _ _ _ _ => Except.ok ()⟩

/-- Like `wOK`, but the first content item of the Bedrock response has an
empty text field. -/
def wEmptyText : AWSWorld :=
  ⟨fun _ _ => Except.ok ⟨[1], none⟩,
   Except.ok ⟨some [⟨some ""⟩]⟩,
   fun _ _ _ _ => Except.ok ()⟩

/-- Like `wOK`, but the S3 read fails with `NoSuchKey`. -/
def wNoSuchKey : AWSWorld :=
  ⟨fun _ _ => Except.error (PyError.clientError "NoSuchKey"),
   Except.ok ⟨some [⟨some "HELLO"⟩]⟩,
   fun _ _ _ _ => Except.ok ()⟩

/-- Like `wOK`, but the Bedrock invocation raises. -/
def wBedrockDown : AWSWorld :=
  ⟨fun _ _ => Except.ok ⟨[1], none⟩,
   Except.error (PyError.generic "bedrock unavailable"),
   fun _ _ _ _ => Except.ok ()⟩


/-! ### Suffix lemmas for the extension dispatch -/

theorem endsWithS_take (s suffix : String) (h : endsWithS s suffix = true) :
    s.data.reverse.take suffix.data.length = suffix.data.reverse := by
  simpa only [endsWithS, beq_iff_eq] using h

theorem endsWithS_png_not_jpg (s : String) (h : endsWithS s ".png" = true) :
    endsWithS s ".jpg" = false := by
  cases hj : endsWithS s ".jpg" with
  | false => rfl
  | true =>
    exfalso
    have h4 : s.data.reverse.take 4 = ['g', 'n', 'p', '.'] := endsWithS_take s ".png" h
    have h4' : s.data.reverse.take 4 = ['g', 'p', 'j', '.'] := endsWithS_take s ".jpg" hj
    rw [h4] at h4'
    exact absurd h4' (by decide)

theorem endsWithS_png_not_jpeg (s : String) (h : endsWithS s ".png" = true) :
    endsWithS s ".jpeg" = false := by
  cases hj : endsWithS s ".jpeg" with
  | false => rfl
  | true =>
    exfalso
    have h4 : s.data.reverse.take 4 = ['g', 'n', 'p', '.'] := endsWithS_take s ".png" h
    have h5 : s.data.reverse.take 5 = ['g', 'e', 'p', 'j', '.'] := endsWithS_take s ".jpeg" hj
    have h45 := congrArg (List.take 4) h5
    rw [List.take_take] at h45
    norm_num at h45
    rw [h4] at h45
    exact absurd h45 (by decide)

/-! ### Rewrite rules for the byte-level percent decoder -/

theorem splitPercent_cons_percent (l : List Nat) :
    splitPercent (37 :: l) = [] :: splitPercent l := by
  simp [splitPercent]

theorem splitPercent_cons_ne (b : Nat) (l : List Nat) (hb : b ≠ 37) (first : List Nat)
    (parts : List (List Nat)) (hs : splitPercent l = first :: parts) :
    splitPercent (b :: l) = (b :: first) :: parts := by
  simp only [splitPercent, if_neg hb, hs]

theorem splitPercent_shape (l : List Nat) :
    ∃ first parts, splitPercent l = first :: parts := by
  induction l with
  | nil => exact ⟨[], [], rfl⟩
  | cons b rest ih =>
    obtain ⟨f, p, hs⟩ := ih
    by_cases hb : b = 37
    · subst hb
      exact ⟨[], splitPercent rest, splitPercent_cons_percent rest⟩
    · exact ⟨b :: f, p, splitPercent_cons_ne b rest hb f p hs⟩

theorem percent_decode_cons_ne (b : Nat) (l : List Nat) (hb : b ≠ 37) :
    percent_decode (b :: l) = b :: percent_decode l := by
  obtain ⟨f, p, hs⟩ := splitPercent_shape l
  simp only [percent_decode, splitPercent_cons_ne b l hb f p hs, hs, List.cons_append]

theorem isHexDigitB_ne_percent (d : Nat) (h : isHexDigitB d = true) : d ≠ 37 := by
  simp only [isHexDigitB, Bool.or_eq_true, Bool.and_eq_true, decide_eq_true_eq] at h
  omega

theorem percent_decode_percent_hex (d1 d2 : Nat) (l : List Nat)
    (h1 : isHexDigitB d1 = true) (h2 : isHexDigitB d2 = true) :
    percent_decode (37 :: d1 :: d2 :: l) =
      (16 * hexVal d1 + hexVal d2) :: percent_decode l := by
  obtain ⟨f, p, hs⟩ := splitPercent_shape l
  have hs2 : splitPercent (d2 :: l) = (d2 :: f) :: p :=
    splitPercent_cons_ne d2 l (isHexDigitB_ne_percent d2 h2) f p hs
  have hs1 : splitPercent (d1 :: d2 :: l) = (d1 :: d2 :: f) :: p :=
    splitPercent_cons_ne d1 (d2 :: l) (isHexDigitB_ne_percent d1 h1) (d2 :: f) p hs2
  simp only [percent_decode, splitPercent_cons_percent, hs1, hs, List.map_cons,
    decodePercentPart, h1, h2]
  simp

theorem unquote_plus_cons_plain (b : Nat) (l : List Nat) (h43 : b ≠ 43) (h37 : b ≠ 37) :
    unquote_plus (b :: l) = b :: unquote_plus l := by
  unfold unquote_plus
  simp only [plusToSpace, List.map_cons, if_neg h43]
  exact percent_decode_cons_ne b _ h37

theorem unquote_plus_cons_plus (l : List Nat) :
    unquote_plus (43 :: l) = 32 :: unquote_plus l := by
  unfold unquote_plus
  simp only [plusToSpace, List.map_cons, if_pos rfl]
  exact percent_decode_cons_ne 32 _ (by omega)

theorem unquote_plus_cons_escape (d1 d2 : Nat) (l : List Nat)
    (h1 : isHexDigitB d1 = true) (h2 : isHexDigitB d2 = true)
    (h1p : d1 ≠ 43) (h2p : d2 ≠ 43) :
    unquote_plus (37 :: d1 :: d2 :: l) =
      (16 * hexVal d1 + hexVal d2) :: unquote_plus l := by
  unfold unquote_plus
  simp only [plusToSpace, List.map_cons]
  rw [if_neg (by omega : ¬(37 = 43)), if_neg h1p, if_neg h2p]
  exact percent_decode_percent_hex d1 d2 _ h1 h2

theorem isSafeByte_ne (b : Nat) (h : isSafeByte b = true) : b ≠ 43 ∧ b ≠ 37 := by
  simp only [isSafeByte, Bool.or_eq_true, Bool.and_eq_true, decide_eq_true_eq] at h
  omega

theorem hexDigitUpper_lt (n : Nat) (h : n < 16) :
    isHexDigitB (hexDigitUpper n) = true ∧ hexVal (hexDigitUpper n) = n ∧
      hexDigitUpper n ≠ 43 := by
  interval_cases n <;> exact ⟨by decide, by decide, by decide⟩

/-! ### Extension dispatch lemmas -/

theorem expected_mime_type_png (key : String)
    (h : endsWithS (lowerStr key) ".png" = true) :
    expected_mime_type key = some "image/png" := by
  have h1 := endsWithS_png_not_jpg _ h
  have h2 := endsWithS_png_not_jpeg _ h
  simp [expected_mime_type, h, h1, h2]

theorem expected_mime_type_jpg (key : String)
    (h : endsWithS (lowerStr key) ".jpg" = true ∨ endsWithS (lowerStr key) ".jpeg" = true) :
    expected_mime_type key = some "image/jpeg" := by
  rcases h with h | h <;> simp [expected_mime_type, h]

/-! ### Handler case analysis -/

theorem handler_ok_shape (cfg : Config) (w : AWSWorld) (rec : S3Record)
    (rest : List S3Record) (ts : String) (res : HandlerResult) (tr : List Effect)
    (h : handler cfg w ⟨rec :: rest⟩ ts = (Except.ok res, tr)) :
    res = ⟨200, "HTML Floor plan generation successful",
      "generated_floorplan_from_" ++ slashToUnderscore (unquotePlusStr rec.objectKey)
        ++ "_" ++ ts ++ ".html"⟩ ∧
    ∃ html,
      Effect.s3Put (cfg.GENERATED_IMAGE_BUCKET_NAME.getD "") res.output_key html "text/html" ∈ tr ∧
      (∀ body, w.invokeModel = Except.ok body →
        html = (first_content_text body).getD FALLBACK_HTML) := by
  by_cases hc : (!truthy cfg.ANALYSIS_MODEL_ID || !truthy cfg.GENERATED_IMAGE_BUCKET_NAME) = true
  · simp [handler, hc] at h
  · rw [Bool.not_eq_true] at hc
    simp only [handler, hc, Bool.false_eq_true, if_false] at h
    rcases hm : expected_mime_type (unquotePlusStr rec.objectKey) with _ | m
    · simp [get_image_from_s3, hm] at h
    · rcases hget : w.getObject rec.bucketName (unquotePlusStr rec.objectKey) with e | resp
      · simp [get_image_from_s3, hm, hget] at h
      · rcases hinv : w.invokeModel with e | body
        · simp [get_image_from_s3, hm, hget,
            invoke_bedrock_multimodal_analysis, hinv] at h
        · rcases hft : first_content_text body with _ | t
          · rcases hput : w.putObject (cfg.GENERATED_IMAGE_BUCKET_NAME.getD "")
                ("generated_floorplan_from_" ++ slashToUnderscore (unquotePlusStr rec.objectKey)
                  ++ "_" ++ ts ++ ".html") FALLBACK_HTML "text/html" with e | u
            · simp [get_image_from_s3, hm, hget,
                invoke_bedrock_multimodal_analysis, hinv, hft, hput] at h
            · simp only [get_image_from_s3, hm, hget,
                invoke_bedrock_multimodal_analysis, hinv, hft, hput,
                Prod.mk.injEq, Except.ok.injEq] at h
              obtain ⟨hres, htr⟩ := h
              subst hres
              subst htr
              refine ⟨rfl, FALLBACK_HTML, by simp, ?_⟩
              intro body2 hb2
              cases hb2
              rw [hft]
              rfl
          · rcases hput : w.putObject (cfg.GENERATED_IMAGE_BUCKET_NAME.getD "")
                ("generated_floorplan_from_" ++ slashToUnderscore (unquotePlusStr rec.objectKey)
                  ++ "_" ++ ts ++ ".html") t "text/html" with e | u
            · simp [get_image_from_s3, hm, hget,
                invoke_bedrock_multimodal_analysis, hinv, hft, hput] at h
            · simp only [get_image_from_s3, hm, hget,
                invoke_bedrock_multimodal_analysis, hinv, hft, hput,
                Prod.mk.injEq, Except.ok.injEq] at h
              obtain ⟨hres, htr⟩ := h
              subst hres
              subst htr
              refine ⟨rfl, t, by simp, ?_⟩
              intro body2 hb2
              cases hb2
              rw [hft]
              rfl

theorem handler_config_error (cfg : Config) (w : AWSWorld) (event : S3Event) (ts : String)
    (hc : (!truthy cfg.ANALYSIS_MODEL_ID || !truthy cfg.GENERATED_IMAGE_BUCKET_NAME) = true) :
    handler cfg w event ts =
      (Except.error (PyError.valueError
        "Configuration Error: BEDROCK_MODEL_ID or GENERATED_IMAGE_BUCKET_NAME missing."), []) := by
  simp [handler, hc]

theorem handler_empty_records (cfg : Config) (w : AWSWorld) (ts : String)
    (hA : truthy cfg.ANALYSIS_MODEL_ID = true)
    (hB : truthy cfg.GENERATED_IMAGE_BUCKET_NAME = true) :
    handler cfg w ⟨[]⟩ ts = (Except.error PyError.indexError, []) := by
  simp [handler, hA, hB]

theorem handler_unsupported_type (cfg : Config) (w : AWSWorld) (rec : S3Record)
    (rest : List S3Record) (ts : String)
    (hA : truthy cfg.ANALYSIS_MODEL_ID = true)
    (hB : truthy cfg.GENERATED_IMAGE_BUCKET_NAME = true)
    (hm : expected_mime_type (unquotePlusStr rec.objectKey) = none) :
    handler cfg w ⟨rec :: rest⟩ ts =
      (Except.error (PyError.valueError
        ("Unsupported file type for analysis: " ++ unquotePlusStr rec.objectKey)), []) := by
  simp [handler, hA, hB, get_image_from_s3, hm]

theorem handler_error_of_get_error (cfg : Config) (w : AWSWorld) (rec : S3Record)
    (rest : List S3Record) (ts m : String) (e : PyError)
    (hA : truthy cfg.ANALYSIS_MODEL_ID = true)
    (hB : truthy cfg.GENERATED_IMAGE_BUCKET_NAME = true)
    (hm : expected_mime_type (unquotePlusStr rec.objectKey) = some m)
    (hget : w.getObject rec.bucketName (unquotePlusStr rec.objectKey) = Except.error e) :
    handler cfg w ⟨rec :: rest⟩ ts =
      (Except.error e, [Effect.s3Get rec.bucketName (unquotePlusStr rec.objectKey)]) := by
  simp [handler, hA, hB, get_image_from_s3, hm, hget]

theorem handler_error_of_invoke_error (cfg : Config) (w : AWSWorld) (rec : S3Record)
    (rest : List S3Record) (ts m : String) (resp : S3ObjectResp) (e : PyError)
    (hA : truthy cfg.ANALYSIS_MODEL_ID = true)
    (hB : truthy cfg.GENERATED_IMAGE_BUCKET_NAME = true)
    (hm : expected_mime_type (unquotePlusStr rec.objectKey) = some m)
    (hget : w.getObject rec.bucketName (unquotePlusStr rec.objectKey) = Except.ok resp)
    (hinv : w.invokeModel = Except.error e) :
    handler cfg w ⟨rec :: rest⟩ ts =
      (Except.error e,
       [Effect.s3Get rec.bucketName (unquotePlusStr rec.objectKey),
        Effect.bedrockInvoke (cfg.ANALYSIS_MODEL_ID.getD "") (b64encode resp.body)
          (resp.contentType.getD m) ANALYSIS_PROMPT_INSTRUCTION]) := by
  simp [handler, hA, hB, get_image_from_s3, hm, hget,
    invoke_bedrock_multimodal_analysis, hinv]

theorem handler_effect_counts (cfg : Config) (w : AWSWorld) (event : S3Event) (ts : String) :
    countGet (handler cfg w event ts).2 ≤ 1 ∧
    countInvoke (handler cfg w event ts).2 ≤ 1 ∧
    countPut (handler cfg w event ts).2 ≤ 1 := by
  obtain ⟨records⟩ := event
  by_cases hc : (!truthy cfg.ANALYSIS_MODEL_ID || !truthy cfg.GENERATED_IMAGE_BUCKET_NAME) = true
  · simp [handler, hc, countGet, countInvoke, countPut]
  · rw [Bool.not_eq_true] at hc
    cases records with
    | nil => simp [handler, hc, countGet, countInvoke, countPut]
    | cons rec rest =>
      rcases hm : expected_mime_type (unquotePlusStr rec.objectKey) with _ | m
      · simp [handler, hc, get_image_from_s3, hm, countGet, countInvoke, countPut]
      · rcases hget : w.getObject rec.bucketName (unquotePlusStr rec.objectKey) with e | resp
        · simp [handler, hc, get_image_from_s3, hm, hget, countGet, countInvoke, countPut]
        · rcases hinv : w.invokeModel with e | body
          · simp [handler, hc, get_image_from_s3, hm, hget,
              invoke_bedrock_multimodal_analysis, hinv, countGet, countInvoke, countPut]
          · rcases hft : first_content_text body with _ | t
            · rcases hput : w.putObject (cfg.GENERATED_IMAGE_BUCKET_NAME.getD "")
                  ("generated_floorplan_from_" ++ slashToUnderscore (unquotePlusStr rec.objectKey)
                    ++ "_" ++ ts ++ ".html") FALLBACK_HTML "text/html" with e | u <;>
                simp [handler, hc, get_image_from_s3, hm, hget,
                  invoke_bedrock_multimodal_analysis, hinv, hft, hput,
                  countGet, countInvoke, countPut]
            · rcases hput : w.putObject (cfg.GENERATED_IMAGE_BUCKET_NAME.getD "")
                  ("generated_floorplan_from_" ++ slashToUnderscore (unquotePlusStr rec.objectKey)
                    ++ "_" ++ ts ++ ".html") t "text/html" with e | u <;>
                simp [handler, hc, get_image_from_s3, hm, hget,
                  invoke_bedrock_multimodal_analysis, hinv, hft, hput,
                  countGet, countInvoke, countPut]

/-! ### The claims -/

/-- C1 (amended): when the fetched object carries no stored content type,
`get_image_from_s3` yields `image/jpeg` for keys ending in `.jpg`/`.jpeg`
and `image/png` for keys ending in `.png`; for any other extension it
fails with the unsupported-file-type `ValueError` before any S3 call
(empty trace). The media type is only extension-derived as a fallback:
a stored `ContentType` takes precedence (see the counterexample). -/
theorem c1_extension_mime_dispatch (w : AWSWorld) (bucket key : String) :
    ((endsWithS (lowerStr key) ".jpg" = true ∨ endsWithS (lowerStr key) ".jpeg" = true) →
      ∀ resp, w.getObject bucket key = Except.ok resp → resp.contentType = none →
        (get_image_from_s3 w bucket key).1 = Except.ok (resp.body, "image/jpeg")) ∧
    (endsWithS (lowerStr key) ".png" = true →
      ∀ resp, w.getObject bucket key = Except.ok resp → resp.contentType = none →
        (get_image_from_s3 w bucket key).1 = Except.ok (resp.body, "image/png")) ∧
    (expected_mime_type key = none →
      get_image_from_s3 w bucket key =
        (Except.error (PyError.valueError ("Unsupported file type for analysis: " ++ key)),
          [])) := by
  refine ⟨?_, ?_, ?_⟩
  · intro h resp hresp hct
    simp [get_image_from_s3, expected_mime_type_jpg key h, hresp, hct]
  · intro h resp hresp hct
    simp [get_image_from_s3, expected_mime_type_png key h, hresp, hct]
  · intro h
    simp [get_image_from_s3, h]

/-- Witness for C1: key `photo.png`, no stored content type, media type
`image/png`. -/
theorem c1_extension_mime_dispatch_witness :
    (get_image_from_s3 wOK "bucket" "photo.png").1 = Except.ok ([1], "image/png") :=
  (c1_extension_mime_dispatch wOK "bucket" "photo.png").2.1 (by decide) ⟨[1], none⟩ rfl rfl

/-- C1 counterexample: for key `photo.png` the fetched object carries the
stored content type `application/octet-stream`, and `get_image_from_s3`
yields that stored type rather than `image/png` — the yielded media type
is not determined purely by the file extension (source line 194,
`response.get('ContentType', expected_mime_type)`). -/
theorem c1_stored_content_type_counterexample :
    (get_image_from_s3 wStoredType "bucket" "photo.png").1 =
      Except.ok ([1], "application/octet-stream") ∧
    "application/octet-stream" ≠ "image/png" := ⟨by decide, by decide⟩

/-- C2: if either required environment value is absent, the handler fails
immediately with the configuration `ValueError` and an empty effect trace:
no storage fetch and no inference call is attempted. -/
theorem c2_missing_config_fails_before_any_call (cfg : Config) (w : AWSWorld)
    (event : S3Event) (ts : String)
    (h : cfg.ANALYSIS_MODEL_ID = none ∨ cfg.GENERATED_IMAGE_BUCKET_NAME = none) :
    handler cfg w event ts =
      (Except.error (PyError.valueError
        "Configuration Error: BEDROCK_MODEL_ID or GENERATED_IMAGE_BUCKET_NAME missing."),
        []) := by
  rcases h with h | h <;> simp [handler, truthy, h]

/-- Witness for C2 with the model identifier absent. -/
theorem c2_missing_config_fails_before_any_call_witness :
    handler cfgNoModel wOK ⟨[⟨"in", "photo.jpg"⟩]⟩ "20240101000000" =
      (Except.error (PyError.valueError
        "Configuration Error: BEDROCK_MODEL_ID or GENERATED_IMAGE_BUCKET_NAME missing."),
        []) :=
  c2_missing_config_fails_before_any_call cfgNoModel wOK ⟨[⟨"in", "photo.jpg"⟩]⟩
    "20240101000000" (Or.inl rfl)

/-- C3 counterexample: a successful invocation on input key `a/b.jpg`
derives the output key with the slash replaced by an underscore, which
differs from `"generated_floorplan_from_" ++ input key ++ "_" ++ timestamp
++ ".html"` as the claim states it. -/
theorem c3_slash_replacement_counterexample :
    (handler cfgOk wOK ⟨[⟨"in", "a/b.jpg"⟩]⟩ "20240101000000").1 =
      Except.ok ⟨200, "HTML Floor plan generation successful",
        "generated_floorplan_from_a_b.jpg_20240101000000.html"⟩ ∧
    "generated_floorplan_from_a_b.jpg_20240101000000.html" ≠
      "generated_floorplan_from_" ++ "a/b.jpg" ++ "_" ++ "20240101000000" ++ ".html" :=
  ⟨by decide, by decide⟩

/-- C3 (amended): on every successful invocation the derived output key is
`"generated_floorplan_from_"` followed by the decoded input key with every
`/` replaced by `_`, an underscore, the second-resolution timestamp, and
the `.html` extension; and the artifact is written (an `s3Put` effect in
the trace) under that key with content type `text/html`. -/
theorem c3_output_key_and_content_type (cfg : Config) (w : AWSWorld) (rec : S3Record)
    (rest : List S3Record) (ts : String) (res : HandlerResult) (tr : List Effect)
    (h : handler cfg w ⟨rec :: rest⟩ ts = (Except.ok res, tr)) :
    res.output_key = "generated_floorplan_from_"
      ++ slashToUnderscore (unquotePlusStr rec.objectKey) ++ "_" ++ ts ++ ".html" ∧
    ∃ html, Effect.s3Put (cfg.GENERATED_IMAGE_BUCKET_NAME.getD "")
      res.output_key html "text/html" ∈ tr := by
  obtain ⟨hres, html, hmem, _⟩ := handler_ok_shape cfg w rec rest ts res tr h
  subst hres
  exact ⟨rfl, html, hmem⟩

/-- Witness for C3 at input key `photo.jpg` and frozen clock
`20240101000000`. -/
theorem c3_output_key_and_content_type_witness :
    (⟨200, "HTML Floor plan generation successful",
      "generated_floorplan_from_photo.jpg_20240101000000.html"⟩ : HandlerResult).output_key =
      "generated_floorplan_from_" ++ slashToUnderscore (unquotePlusStr "photo.jpg")
        ++ "_" ++ "20240101000000" ++ ".html" ∧
    ∃ html, Effect.s3Put (cfgOk.GENERATED_IMAGE_BUCKET_NAME.getD "")
      (⟨200, "HTML Floor plan generation successful",
        "generated_floorplan_from_photo.jpg_20240101000000.html"⟩ : HandlerResult).output_key
      html "text/html" ∈
      [Effect.s3Get "in" "photo.jpg",
       Effect.bedrockInvoke "model-id" "AQ==" "image/jpeg" ANALYSIS_PROMPT_INSTRUCTION,
       Effect.s3Put "out-bucket" "generated_floorplan_from_photo.jpg_20240101000000.html"
         "HELLO" "text/html"] :=
  c3_output_key_and_content_type cfgOk wOK ⟨"in", "photo.jpg"⟩ [] "20240101000000"
    _ _ (by decide)

/-- C4 counterexample: the response whose first content item carries an
empty text field does have a `text` field, yet the client returns the
fallback placeholder (Python truthiness of `.get('text')` treats the empty
string like an absent field). -/
theorem c4_empty_text_counterexample :
    (⟨some ""⟩ : ContentItem).text ≠ none ∧
    (invoke_bedrock_multimodal_analysis cfgOk wEmptyText "img" "image/png" "prompt").1 =
      Except.ok FALLBACK_HTML :=
  ⟨by decide, by decide⟩

/-- C4 (amended): the inference client returns the fixed fallback
placeholder, without raising, exactly when the `content` list is missing
or empty or the first content item's text is missing or empty; when the
first item has a non-empty text `t` the client returns `t` itself (which
coincides with the placeholder only if `t` is that very string). -/
theorem c4_fallback_characterization (cfg : Config) (w : AWSWorld)
    (b64 mt p : String) (body : BedrockResponseBody)
    (h : w.invokeModel = Except.ok body) :
    (∀ t items, body.content = some (⟨some t⟩ :: items) → t ≠ "" →
      (invoke_bedrock_multimodal_analysis cfg w b64 mt p).1 = Except.ok t) ∧
    ((body.content = none ∨ body.content = some [] ∨
      (∃ items, body.content = some (⟨none⟩ :: items)) ∨
      (∃ items, body.content = some (⟨some ""⟩ :: items))) →
      (invoke_bedrock_multimodal_analysis cfg w b64 mt p).1 = Except.ok FALLBACK_HTML) := by
  constructor
  · intro t items hcon ht
    have hft : first_content_text body = some t := by
      simp [first_content_text, hcon, ht]
    simp [invoke_bedrock_multimodal_analysis, h, hft]
  · intro hbad
    have hft : first_content_text body = none := by
      rcases hbad with h1 | h1 | ⟨items, h1⟩ | ⟨items, h1⟩ <;> simp [first_content_text, h1]
    simp [invoke_bedrock_multimodal_analysis, h, hft]

/-- Witness for C4: a response with non-empty text `HELLO` is returned
verbatim, not as the fallback. -/
theorem c4_fallback_characterization_witness :
    (invoke_bedrock_multimodal_analysis cfgOk wOK "img" "image/jpeg" "prompt").1 =
      Except.ok "HELLO" :=
  (c4_fallback_characterization cfgOk wOK "img" "image/jpeg" "prompt"
    ⟨some [⟨some "HELLO"⟩]⟩ rfl).1 "HELLO" [] rfl (by decide)

/-- C5: when the inference response is `⟨content = [⟨text = t⟩, ...]⟩` with
`t` non-empty, the client returns exactly `t` and every successful
invocation persists exactly `t`, unmodified, as the body of the `s3Put`
effect. -/
theorem c5_result_text_returned_and_persisted (cfg : Config) (w : AWSWorld)
    (rec : S3Record) (rest : List S3Record) (ts t : String) (items : List ContentItem)
    (res : HandlerResult) (tr : List Effect)
    (hinv : w.invokeModel = Except.ok ⟨some (⟨some t⟩ :: items)⟩)
    (ht : t ≠ "")
    (h : handler cfg w ⟨rec :: rest⟩ ts = (Except.ok res, tr)) :
    (∀ b64 mt p, (invoke_bedrock_multimodal_analysis cfg w b64 mt p).1 = Except.ok t) ∧
    ∃ bkt key, Effect.s3Put bkt key t "text/html" ∈ tr := by
  have hft : first_content_text ⟨some (⟨some t⟩ :: items)⟩ = some t := by
    simp [first_content_text, ht]
  constructor
  · intro b64 mt p
    simp [invoke_bedrock_multimodal_analysis, hinv, hft]
  · obtain ⟨hres, html, hmem, hchar⟩ := handler_ok_shape cfg w rec rest ts res tr h
    have hhtml : html = t := by rw [hchar _ hinv, hft]; rfl
    subst hhtml
    exact ⟨_, _, hmem⟩

/-- Witness for C5: text `HELLO` is returned and persisted verbatim. -/
theorem c5_result_text_returned_and_persisted_witness :
    (∀ b64 mt p, (invoke_bedrock_multimodal_analysis cfgOk wOK b64 mt p).1 =
      Except.ok "HELLO") ∧
    ∃ bkt key, Effect.s3Put bkt key "HELLO" "text/html" ∈
      [Effect.s3Get "in" "photo.jpg",
       Effect.bedrockInvoke "model-id" "AQ==" "image/jpeg" ANALYSIS_PROMPT_INSTRUCTION,
       Effect.s3Put "out-bucket" "generated_floorplan_from_photo.jpg_20240101000000.html"
         "HELLO" "text/html"] :=
  c5_result_text_returned_and_persisted cfgOk wOK ⟨"in", "photo.jpg"⟩ [] "20240101000000"
    "HELLO" [] ⟨200, "HTML Floor plan generation successful",
      "generated_floorplan_from_photo.jpg_20240101000000.html"⟩ _ rfl (by decide) (by decide)

/-- C6: the key decoding performed by the handler on the first record
(`urllib.parse.unquote_plus`, modelled by `unquote_plus` over UTF-8 byte
sequences) fully undoes the platform's percent-encoding of object keys
(`quote_plus`): the decoded key round-trips to the original string used
for the storage lookup. -/
theorem c6_key_percent_decoding_roundtrip (key : List Nat) (h : ∀ b ∈ key, b < 256) :
    unquote_plus (quote_plus key) = key := by
  induction key with
  | nil => rfl
  | cons b rest ih =>
    have hb : b < 256 := h b (List.mem_cons_self b rest)
    have hrest := ih (fun x hx => h x (List.mem_cons_of_mem b hx))
    by_cases h32 : b = 32
    · subst h32
      rw [show quote_plus (32 :: rest) = 43 :: quote_plus rest from by simp [quote_plus],
        unquote_plus_cons_plus, hrest]
    · by_cases hsafe : isSafeByte b = true
      · obtain ⟨hn43, hn37⟩ := isSafeByte_ne b hsafe
        rw [show quote_plus (b :: rest) = b :: quote_plus rest from by
            simp [quote_plus, h32, hsafe],
          unquote_plus_cons_plain b _ hn43 hn37, hrest]
      · have hd1 : b / 16 < 16 := by omega
        have hd2 : b % 16 < 16 := by omega
        obtain ⟨hh1, hv1, hp1⟩ := hexDigitUpper_lt _ hd1
        obtain ⟨hh2, hv2, hp2⟩ := hexDigitUpper_lt _ hd2
        rw [show quote_plus (b :: rest)
            = 37 :: hexDigitUpper (b / 16) :: hexDigitUpper (b % 16) :: quote_plus rest from by
            simp [quote_plus, h32, hsafe],
          unquote_plus_cons_escape _ _ _ hh1 hh2 hp1 hp2, hv1, hv2, hrest]
        congr 1
        omega

/-- Witness for C6: the key `room 1.png` survives the encode/decode
round trip. -/
theorem c6_key_percent_decoding_roundtrip_witness :
    unquote_plus (quote_plus (asciiBytes "room 1.png")) = asciiBytes "room 1.png" :=
  c6_key_percent_decoding_roundtrip (asciiBytes "room 1.png") (by decide)

/-- C7: errors are terminal for the invocation and nothing is retried:
every trace contains at most one S3 get, at most one Bedrock invocation
and at most one S3 put; and a storage or inference exception propagates
unchanged as the result of the handler. -/
theorem c7_errors_terminal_no_internal_retry (cfg : Config) (w : AWSWorld)
    (event : S3Event) (ts : String) :
    countGet (handler cfg w event ts).2 ≤ 1 ∧
    countInvoke (handler cfg w event ts).2 ≤ 1 ∧
    countPut (handler cfg w event ts).2 ≤ 1 ∧
    (∀ rec rest m e, event.records = rec :: rest →
      truthy cfg.ANALYSIS_MODEL_ID = true →
      truthy cfg.GENERATED_IMAGE_BUCKET_NAME = true →
      expected_mime_type (unquotePlusStr rec.objectKey) = some m →
      w.getObject rec.bucketName (unquotePlusStr rec.objectKey) = Except.error e →
      (handler cfg w event ts).1 = Except.error e) ∧
    (∀ rec rest m resp e, event.records = rec :: rest →
      truthy cfg.ANALYSIS_MODEL_ID = true →
      truthy cfg.GENERATED_IMAGE_BUCKET_NAME = true →
      expected_mime_type (unquotePlusStr rec.objectKey) = some m →
      w.getObject rec.bucketName (unquotePlusStr rec.objectKey) = Except.ok resp →
      w.invokeModel = Except.error e →
      (handler cfg w event ts).1 = Except.error e) := by
  obtain ⟨records⟩ := event
  refine ⟨(handler_effect_counts cfg w ⟨records⟩ ts).1,
          (handler_effect_counts cfg w ⟨records⟩ ts).2.1,
          (handler_effect_counts cfg w ⟨records⟩ ts).2.2, ?_, ?_⟩
  · intro rec rest m e hrec hA hB hm hget
    have hrec2 : records = rec :: rest := hrec
    subst hrec2
    rw [handler_error_of_get_error cfg w rec rest ts m e hA hB hm hget]
  · intro rec rest m resp e hrec hA hB hm hget hinv
    have hrec2 : records = rec :: rest := hrec
    subst hrec2
    rw [handler_error_of_invoke_error cfg w rec rest ts m resp e hA hB hm hget hinv]

/-- Witness for C7: a `NoSuchKey` storage error propagates unchanged. -/
theorem c7_errors_terminal_no_internal_retry_witness :
    (handler cfgOk wNoSuchKey ⟨[⟨"in", "photo.jpg"⟩]⟩ "20240101000000").1 =
      Except.error (PyError.clientError "NoSuchKey") :=
  (c7_errors_terminal_no_internal_retry cfgOk wNoSuchKey ⟨[⟨"in", "photo.jpg"⟩]⟩
    "20240101000000").2.2.2.1 ⟨"in", "photo.jpg"⟩ [] "image/jpeg"
    (PyError.clientError "NoSuchKey") rfl (by decide) (by decide) (by decide) (by decide)

/-- C8: the handler reads only `Records[0]`: a payload with additional
records behaves exactly like the payload containing the first record
alone, in result and in effect trace. -/
theorem c8_only_first_record_processed (cfg : Config) (w : AWSWorld) (rec : S3Record)
    (rest : List S3Record) (ts : String) :
    handler cfg w ⟨rec :: rest⟩ ts = handler cfg w ⟨[rec]⟩ ts := rfl

/-- C9: the extension check lower-cases the key first, so any key whose
lower-cased form ends in `.png` (or `.jpg`, `.jpeg`) is accepted — the
fetch is attempted — with the same media type as the lower-case
extension. -/
theorem c9_extension_check_case_insensitive (w : AWSWorld) (bucket key : String) :
    (endsWithS (lowerStr key) ".png" = true →
      expected_mime_type key = some "image/png" ∧
      (get_image_from_s3 w bucket key).2 = [Effect.s3Get bucket key]) ∧
    (endsWithS (lowerStr key) ".jpg" = true →
      expected_mime_type key = some "image/jpeg" ∧
      (get_image_from_s3 w bucket key).2 = [Effect.s3Get bucket key]) ∧
    (endsWithS (lowerStr key) ".jpeg" = true →
      expected_mime_type key = some "image/jpeg" ∧
      (get_image_from_s3 w bucket key).2 = [Effect.s3Get bucket key]) := by
  refine ⟨?_, ?_, ?_⟩ <;> intro h
  · have hm := expected_mime_type_png key h
    refine ⟨hm, ?_⟩
    rcases hg : w.getObject bucket key with e | resp <;> simp [get_image_from_s3, hm, hg]
  · have hm := expected_mime_type_jpg key (Or.inl h)
    refine ⟨hm, ?_⟩
    rcases hg : w.getObject bucket key with e | resp <;> simp [get_image_from_s3, hm, hg]
  · have hm := expected_mime_type_jpg key (Or.inr h)
    refine ⟨hm, ?_⟩
    rcases hg : w.getObject bucket key with e | resp <;> simp [get_image_from_s3, hm, hg]

/-- Witness for C9 at the upper-case key `PHOTO.PNG`. -/
theorem c9_extension_check_case_insensitive_witness :
    expected_mime_type "PHOTO.PNG" = some "image/png" ∧
    (get_image_from_s3 wOK "bucket" "PHOTO.PNG").2 = [Effect.s3Get "bucket" "PHOTO.PNG"] :=
  (c9_extension_check_case_insensitive wOK "bucket" "PHOTO.PNG").1 (by decide)

/-- C10: if any stage after the configuration check fails — event decoding
(no record), the unsupported-type check, the storage fetch, or the
inference call — the invocation ends in an error and its trace contains no
`s3Put`: nothing is ever written to the output bucket. -/
theorem c10_no_write_on_earlier_failure (cfg : Config) (w : AWSWorld)
    (event : S3Event) (ts : String) :
    (event.records = [] →
      (∃ e, (handler cfg w event ts).1 = Except.error e) ∧
      countPut (handler cfg w event ts).2 = 0) ∧
    (∀ rec rest, event.records = rec :: rest →
      expected_mime_type (unquotePlusStr rec.objectKey) = none →
      (∃ e, (handler cfg w event ts).1 = Except.error e) ∧
      countPut (handler cfg w event ts).2 = 0) ∧
    (∀ rec rest e0, event.records = rec :: rest →
      w.getObject rec.bucketName (unquotePlusStr rec.objectKey) = Except.error e0 →
      (∃ e, (handler cfg w event ts).1 = Except.error e) ∧
      countPut (handler cfg w event ts).2 = 0) ∧
    (∀ e0, w.invokeModel = Except.error e0 →
      (∃ e, (handler cfg w event ts).1 = Except.error e) ∧
      countPut (handler cfg w event ts).2 = 0) := by
  obtain ⟨records⟩ := event
  by_cases hc : (!truthy cfg.ANALYSIS_MODEL_ID || !truthy cfg.GENERATED_IMAGE_BUCKET_NAME) = true
  · rw [handler_config_error cfg w ⟨records⟩ ts hc]
    exact ⟨fun _ => ⟨⟨_, rfl⟩, rfl⟩, fun _ _ _ _ => ⟨⟨_, rfl⟩, rfl⟩,
      fun _ _ _ _ _ => ⟨⟨_, rfl⟩, rfl⟩, fun _ _ => ⟨⟨_, rfl⟩, rfl⟩⟩
  · have hAB : truthy cfg.ANALYSIS_MODEL_ID = true ∧
        truthy cfg.GENERATED_IMAGE_BUCKET_NAME = true := by
      cases hA : truthy cfg.ANALYSIS_MODEL_ID <;>
        cases hB : truthy cfg.GENERATED_IMAGE_BUCKET_NAME <;>
        simp [hA, hB] at hc ⊢
    obtain ⟨hA, hB⟩ := hAB
    refine ⟨?_, ?_, ?_, ?_⟩
    · intro hrec
      have hrec2 : records = [] := hrec
      subst hrec2
      rw [handler_empty_records cfg w ts hA hB]
      exact ⟨⟨_, rfl⟩, rfl⟩
    · intro rec rest hrec hm
      have hrec2 : records = rec :: rest := hrec
      subst hrec2
      rw [handler_unsupported_type cfg w rec rest ts hA hB hm]
      exact ⟨⟨_, rfl⟩, rfl⟩
    · intro rec rest e0 hrec hget
      have hrec2 : records = rec :: rest := hrec
      subst hrec2
      rcases hm : expected_mime_type (unquotePlusStr rec.objectKey) with _ | m
      · rw [handler_unsupported_type cfg w rec rest ts hA hB hm]
        exact ⟨⟨_, rfl⟩, rfl⟩
      · rw [handler_error_of_get_error cfg w rec rest ts m e0 hA hB hm hget]
        exact ⟨⟨_, rfl⟩, rfl⟩
    · intro e0 hinv
      cases records with
      | nil =>
        rw [handler_empty_records cfg w ts hA hB]
        exact ⟨⟨_, rfl⟩, rfl⟩
      | cons rec rest =>
        rcases hm : expected_mime_type (unquotePlusStr rec.objectKey) with _ | m
        · rw [handler_unsupported_type cfg w rec rest ts hA hB hm]
          exact ⟨⟨_, rfl⟩, rfl⟩
        · rcases hget : w.getObject rec.bucketName (unquotePlusStr rec.objectKey) with e1 | resp
          · rw [handler_error_of_get_error cfg w rec rest ts m e1 hA hB hm hget]
            exact ⟨⟨_, rfl⟩, rfl⟩
          · rw [handler_error_of_invoke_error cfg w rec rest ts m resp e0 hA hB hm hget hinv]
            exact ⟨⟨_, rfl⟩, rfl⟩

/-- Witness for C10: with a failing storage fetch, the invocation errors
and the trace contains no write. -/
theorem c10_no_write_on_earlier_failure_witness :
    (∃ e, (handler cfgOk wNoSuchKey ⟨[⟨"in", "photo.jpg"⟩]⟩ "20240101000000").1 =
      Except.error e) ∧
    countPut (handler cfgOk wNoSuchKey ⟨[⟨"in", "photo.jpg"⟩]⟩ "20240101000000").2 = 0 :=
  (c10_no_write_on_earlier_failure cfgOk wNoSuchKey ⟨[⟨"in", "photo.jpg"⟩]⟩
    "20240101000000").2.2.1 ⟨"in", "photo.jpg"⟩ [] (PyError.clientError "NoSuchKey") rfl rfl
